import Mathlib

/-!
Verification of the check-in and aggregation engine of the eco-habits bot
(`src/bot.py`). The SQLite store is embedded shallowly: the `users` table is an
association list keyed by `user_id`, the `checkins` table is a list of rows
whose primary key is the whole row `(user_id, day, habit_key)`. Each database
helper of `bot.py` is translated to a pure function on `Store`.
-/

namespace EcoBot

/-- A row of the `users` table (`user_id` is the association-list key). -/
structure UserRow where
  username : Option String
  first_name : Option String
  class_name : Option String
  joined_at : String
deriving DecidableEq, Repr

/-- A row of the `checkins` table; the triple is the primary key. -/
structure Checkin where
  user_id : Nat
  day : String
  habit_key : String
deriving DecidableEq, Repr

/-- The whole SQLite database. -/
structure Store where
  users : List (Nat × UserRow)
  checkins : List Checkin
deriving DecidableEq, Repr

/-- `CLASSES` from `bot.py`. -/
def CLASSES : List String := ["6В", "6Г"]

/-- `HABITS` from `bot.py`. -/
def HABITS : List (String × String) :=
  [("water_teeth", "🚰 Выключаю воду при чистке зубов"),
   ("lights_off", "💡 Выключаю свет, выходя из комнаты"),
   ("no_cup", "🥤 Не пью из одноразового стаканчика"),
   ("no_bag", "🛍️ Не использую пластиковый пакет"),
   ("trash_place", "🗑️ Мусор - в отведённые места"),
   ("eco_move", "🚶 Пешком/экологичный транспорт")]

/-- `SELECT ... WHERE user_id=?` on the `users` table (primary-key lookup). -/
def findUser : List (Nat × UserRow) → Nat → Option UserRow
  | [], _ => none
  | (i, r) :: rest, user_id => if i = user_id then some r else findUser rest user_id

/-- `upsert_user` of `bot.py`: `INSERT ... ON CONFLICT(user_id) DO UPDATE SET
username=excluded.username, first_name=excluded.first_name`. On conflict only
`username` and `first_name` are rewritten; otherwise a fresh row with
`class_name = NULL` and `joined_at = now` is inserted. -/
def upsert_user (s : Store) (user_id : Nat) (username first_name : Option String)
    (now : String) : Store :=
  if (findUser s.users user_id).isSome then
    { s with users := s.users.map (fun p =>
        if p.1 = user_id then
          (p.1, { p.2 with username := username, first_name := first_name })
        else p) }
  else
    { s with users := s.users ++ [(user_id, ⟨username, first_name, none, now⟩)] }

/-- `set_user_class` of `bot.py`: `UPDATE users SET class_name=? WHERE user_id=?`. -/
def set_user_class (s : Store) (user_id : Nat) (class_name : String) : Store :=
  { s with users := s.users.map (fun p =>
      if p.1 = user_id then (p.1, { p.2 with class_name := some class_name }) else p) }

/-- `get_user_class` of `bot.py`: `row[0] if row else None`. -/
def get_user_class (s : Store) (user_id : Nat) : Option String :=
  match findUser s.users user_id with
  | some r => r.class_name
  | none => none

/-- `get_all_users` of `bot.py`: `SELECT user_id FROM users`. -/
def get_all_users (s : Store) : List Nat :=
  s.users.map (fun p => p.1)

/-- `set_habit` of `bot.py`: `INSERT OR IGNORE` when `enabled`, `DELETE ... WHERE`
on the full key otherwise. -/
def set_habit (s : Store) (user_id : Nat) (day : String) (habit_key : String)
    (enabled : Bool) : Store :=
  if enabled then
    if (⟨user_id, day, habit_key⟩ : Checkin) ∈ s.checkins then s
    else { s with checkins := s.checkins ++ [⟨user_id, day, habit_key⟩] }
  else
    { s with checkins := s.checkins.filter (fun c =>
        !(c.user_id == user_id && c.day == day && c.habit_key == habit_key)) }

/-- `get_user_day_habits` of `bot.py`: `SELECT habit_key FROM checkins WHERE
user_id=? AND day=?` (the Python function wraps the rows in a set; membership
is what every caller uses). -/
def get_user_day_habits (s : Store) (user_id : Nat) (day : String) : List String :=
  (s.checkins.filter (fun c => c.user_id == user_id && c.day == day)).map
    (fun c => c.habit_key)

/-- `cb_toggle` of `bot.py` (store part): read the day's marks, flip the
presence of `habit_key`, write through `set_habit`; the returned `Bool` is
`new_state` (the text of the answer callback distinguishes the two values). -/
def cb_toggle (s : Store) (user_id : Nat) (day : String) (habit_key : String) :
    Store × Bool :=
  let selected := get_user_day_habits s user_id day
  let new_state : Bool := decide (habit_key ∉ selected)
  (set_habit s user_id day habit_key new_state, new_state)

/-! ### Membership lemmas for the check-in engine -/

theorem mem_get_user_day_habits (s : Store) (u : Nat) (d k : String) :
    k ∈ get_user_day_habits s u d ↔ (⟨u, d, k⟩ : Checkin) ∈ s.checkins := by
  unfold get_user_day_habits
  simp only [List.mem_map, List.mem_filter, Bool.and_eq_true, beq_iff_eq]
  constructor
  · rintro ⟨c, ⟨hc, hu, hd⟩, hk⟩
    have : c = (⟨u, d, k⟩ : Checkin) := by
      cases c; simp_all
    rwa [this] at hc
  · intro h
    exact ⟨⟨u, d, k⟩, ⟨h, rfl, rfl⟩, rfl⟩

theorem set_habit_true_of_mem {s : Store} {u : Nat} {d k : String}
    (h : (⟨u, d, k⟩ : Checkin) ∈ s.checkins) : set_habit s u d k true = s := by
  simp [set_habit, h]

theorem set_habit_true_of_not_mem {s : Store} {u : Nat} {d k : String}
    (h : (⟨u, d, k⟩ : Checkin) ∉ s.checkins) :
    set_habit s u d k true = { s with checkins := s.checkins ++ [⟨u, d, k⟩] } := by
  simp [set_habit, h]

theorem set_habit_false_eq (s : Store) (u : Nat) (d k : String) :
    set_habit s u d k false = { s with checkins := s.checkins.filter (fun c =>
      !(c.user_id == u && c.day == d && c.habit_key == k)) } := by
  simp [set_habit]

theorem mem_set_habit_true (s : Store) (u : Nat) (d k : String) :
    (⟨u, d, k⟩ : Checkin) ∈ (set_habit s u d k true).checkins := by
  by_cases h : (⟨u, d, k⟩ : Checkin) ∈ s.checkins
  · rw [set_habit_true_of_mem h]; exact h
  · rw [set_habit_true_of_not_mem h]; simp

theorem not_mem_set_habit_false (s : Store) (u : Nat) (d k : String) :
    (⟨u, d, k⟩ : Checkin) ∉ (set_habit s u d k false).checkins := by
  rw [set_habit_false_eq]
  simp [List.mem_filter]

theorem cb_toggle_of_mem {s : Store} {u : Nat} {d k : String}
    (h : (⟨u, d, k⟩ : Checkin) ∈ s.checkins) :
    cb_toggle s u d k = (set_habit s u d k false, false) := by
  have hsel : k ∈ get_user_day_habits s u d := (mem_get_user_day_habits s u d k).mpr h
  simp [cb_toggle, hsel]

theorem cb_toggle_of_not_mem {s : Store} {u : Nat} {d k : String}
    (h : (⟨u, d, k⟩ : Checkin) ∉ s.checkins) :
    cb_toggle s u d k = (set_habit s u d k true, true) := by
  have hsel : k ∉ get_user_day_habits s u d := fun hm =>
    h ((mem_get_user_day_habits s u d k).mp hm)
  simp [cb_toggle, hsel]

/-- C1. Toggle is an involution: toggling the same (user, day, habit) twice with
no interleaving write restores the presence of the mark, and the two calls
return complementary booleans. -/
theorem cb_toggle_involution (s : Store) (u : Nat) (d k : String) :
    ((⟨u, d, k⟩ : Checkin) ∈ (cb_toggle (cb_toggle s u d k).1 u d k).1.checkins ↔
      (⟨u, d, k⟩ : Checkin) ∈ s.checkins) ∧
    (cb_toggle (cb_toggle s u d k).1 u d k).2 = !(cb_toggle s u d k).2 := by
  by_cases h : (⟨u, d, k⟩ : Checkin) ∈ s.checkins
  · -- first toggle deletes the mark, second re-inserts it
    rw [cb_toggle_of_mem h]
    have habs := not_mem_set_habit_false s u d k
    rw [cb_toggle_of_not_mem habs]
    exact ⟨by simp [h, mem_set_habit_true], rfl⟩
  · -- first toggle inserts the mark, second deletes it
    rw [cb_toggle_of_not_mem h]
    have hmem := mem_set_habit_true s u d k
    rw [cb_toggle_of_mem hmem]
    exact ⟨by simp [h, not_mem_set_habit_false], rfl⟩

/-- C2. `set_habit` is idempotent in both directions: repeating an insert or a
delete of the same (user, day, habit) leaves the store exactly as after the
first call (and, being a total function, it never raises on redundant calls). -/
theorem set_habit_idempotent (s : Store) (u : Nat) (d k : String) :
    set_habit (set_habit s u d k true) u d k true = set_habit s u d k true ∧
    set_habit (set_habit s u d k false) u d k false = set_habit s u d k false := by
  constructor
  · exact set_habit_true_of_mem (mem_set_habit_true s u d k)
  · rw [set_habit_false_eq s u d k, set_habit_false_eq]
    simp [List.filter_filter]

/-! ### User-table lemmas -/

theorem findUser_map_update (users : List (Nat × UserRow)) (uid : Nat)
    (f : UserRow → UserRow) :
    findUser (users.map (fun p => if p.1 = uid then (p.1, f p.2) else p)) uid =
      (findUser users uid).map f := by
  induction users with
  | nil => rfl
  | cons hd tl ih =>
    obtain ⟨i, r⟩ := hd
    rw [List.map_cons]
    by_cases h : i = uid
    · subst h
      have hhd : (if (i, r).1 = i then ((i, r).1, f (i, r).2) else (i, r))
          = (i, f r) := by simp
      rw [hhd]
      simp [findUser]
    · have hhd : (if (i, r).1 = uid then ((i, r).1, f (i, r).2) else (i, r))
          = (i, r) := by simp [h]
      rw [hhd]
      simp [findUser, h, ih]

theorem findUser_eq_none_iff (users : List (Nat × UserRow)) (uid : Nat) :
    findUser users uid = none ↔ ∀ p ∈ users, p.1 ≠ uid := by
  induction users with
  | nil => simp [findUser]
  | cons hd tl ih =>
    obtain ⟨i, r⟩ := hd
    by_cases h : i = uid <;> simp [findUser, h, ih]

/-- C3. Upserting an existing user rewrites only the display-name columns: the
row's `class_name` and `joined_at` are exactly what they were before the call. -/
theorem upsert_user_preserves_group_and_join (s : Store) (uid : Nat)
    (username first_name : Option String) (now : String)
    (h : (findUser s.users uid).isSome) :
    (findUser (upsert_user s uid username first_name now).users uid).map
        (fun r => r.class_name) = (findUser s.users uid).map (fun r => r.class_name) ∧
    (findUser (upsert_user s uid username first_name now).users uid).map
        (fun r => r.joined_at) = (findUser s.users uid).map (fun r => r.joined_at) := by
  obtain ⟨r, hr⟩ := Option.isSome_iff_exists.mp h
  unfold upsert_user
  rw [if_pos h]
  rw [findUser_map_update s.users uid
    (fun r => { r with username := username, first_name := first_name }), hr]
  exact ⟨rfl, rfl⟩

/-- Witness for C3 at a concrete store: the stored group and join timestamp
survive a display-name upsert. -/
theorem upsert_user_preserves_group_and_join_witness :
    (findUser (Store.mk [(1, ⟨some "ann", some "Ann", some "6В", "2024-05-01"⟩)] []).users
        1).isSome = true ∧
    ((findUser (upsert_user
          (Store.mk [(1, ⟨some "ann", some "Ann", some "6В", "2024-05-01"⟩)] [])
          1 (some "bob") (some "Bob") "2024-06-02").users 1).map
        (fun r => r.class_name) =
      (findUser (Store.mk [(1, ⟨some "ann", some "Ann", some "6В", "2024-05-01"⟩)] []).users
          1).map (fun r => r.class_name) ∧
    (findUser (upsert_user
          (Store.mk [(1, ⟨some "ann", some "Ann", some "6В", "2024-05-01"⟩)] [])
          1 (some "bob") (some "Bob") "2024-06-02").users 1).map
        (fun r => r.joined_at) =
      (findUser (Store.mk [(1, ⟨some "ann", some "Ann", some "6В", "2024-05-01"⟩)] []).users
          1).map (fun r => r.joined_at)) :=
  ⟨rfl, upsert_user_preserves_group_and_join
    (Store.mk [(1, ⟨some "ann", some "Ann", some "6В", "2024-05-01"⟩)] [])
    1 (some "bob") (some "Bob") "2024-06-02" rfl⟩

theorem map_update_of_none (users : List (Nat × UserRow)) (uid : Nat)
    (g : Nat × UserRow → Nat × UserRow)
    (hall : ∀ p ∈ users, p.1 ≠ uid) :
    users.map (fun p => if p.1 = uid then g p else p) = users := by
  induction users with
  | nil => rfl
  | cons hd tl ih =>
    simp only [List.map_cons]
    rw [if_neg (hall hd (by simp)), ih (fun p hp => hall p (by simp [hp]))]

/-- C10. `set_user_class` on an id that was never upserted is a silent no-op:
the `UPDATE ... WHERE user_id=?` matches no row, no error is raised, and the
store (users and checkins alike) is returned unchanged. -/
theorem set_user_class_unknown_noop (s : Store) (uid : Nat) (c : String)
    (h : findUser s.users uid = none) : set_user_class s uid c = s := by
  have hall := (findUser_eq_none_iff s.users uid).mp h
  unfold set_user_class
  rw [map_update_of_none s.users uid
    (fun p => (p.1, { p.2 with class_name := some c })) hall]

/-- Witness for C10: updating the class of the unknown id 2 leaves a concrete
one-user store untouched. -/
theorem set_user_class_unknown_noop_witness :
    findUser (Store.mk [(1, ⟨none, none, none, "2024-05-01"⟩)] []).users 2 = none ∧
    set_user_class (Store.mk [(1, ⟨none, none, none, "2024-05-01"⟩)] []) 2 "6В" =
      Store.mk [(1, ⟨none, none, none, "2024-05-01"⟩)] [] :=
  ⟨rfl, set_user_class_unknown_noop
    (Store.mk [(1, ⟨none, none, none, "2024-05-01"⟩)] []) 2 "6В" rfl⟩

/-! ### Aggregation engine -/

/-- The descending-count order used by every `ORDER BY c DESC`. -/
def countDesc {α : Type} (a b : α × Nat) : Prop := b.2 ≤ a.2

instance {α : Type} : DecidableRel (@countDesc α) := fun a b => Nat.decLe b.2 a.2

instance {α : Type} : IsTotal (α × Nat) countDesc := ⟨fun a b => Nat.le_total b.2 a.2⟩

instance {α : Type} : IsTrans (α × Nat) countDesc := ⟨fun _ _ _ h1 h2 => Nat.le_trans h2 h1⟩

/-- `COUNT(*)` of the rows of one `GROUP BY` bucket. -/
def bucketCount {α : Type} [DecidableEq α] (l : List α) (k : α) : Nat :=
  List.count k l

/-- `SELECT key, COUNT(*) as c ... GROUP BY key ORDER BY c DESC` over the list
of key values of the selected rows (groups carry their size; tie order among
equal counts is unspecified in SQLite, here the stable insertion sort). -/
def groupByCountDesc {α : Type} [DecidableEq α] (l : List α) : List (α × Nat) :=
  List.insertionSort countDesc (l.dedup.map (fun k => (k, bucketCount l k)))

/-- `get_user_stats` of `bot.py`: total marks, `COUNT(DISTINCT day)`, and the
per-habit counts ordered by count descending. -/
def get_user_stats (s : Store) (user_id : Nat) : Nat × Nat × List (String × Nat) :=
  let mine := s.checkins.filter (fun c => c.user_id == user_id)
  (mine.length, ((mine.map (fun c => c.day)).dedup).length,
    groupByCountDesc (mine.map (fun c => c.habit_key)))

/-- `get_group_stats` of `bot.py`. The `where_sql`/`params` pair is embedded as
the predicate it denotes on the joined `users` row: the two call sites pass
`""` (no filter, every row matches) and `"WHERE users.class_name=?"`. The four
`SELECT`s become: count of matching users, count of `checkins JOIN users` rows,
`COUNT(DISTINCT day)` of those rows, and their per-habit counts ordered by
count descending. -/
def get_group_stats (s : Store) (whereClause : UserRow → Bool) :
    Nat × Nat × Nat × List (String × Nat) :=
  let users_count := (s.users.filter (fun p => whereClause p.2)).length
  let joined := s.checkins.filter (fun c =>
    match findUser s.users c.user_id with
    | some r => whereClause r
    | none => false)
  (users_count, joined.length, ((joined.map (fun c => c.day)).dedup).length,
    groupByCountDesc (joined.map (fun c => c.habit_key)))

/-- `habit_label` of `bot.py`: first matching label in `HABITS`, else the key. -/
def habit_label (key : String) : String :=
  match HABITS.find? (fun p => p.1 == key) with
  | some p => p.2
  | none => key

/-- `format_top_habits` of `bot.py`: the "no data" placeholder on an empty
leaderboard, otherwise one line per entry of `by_habit[:limit]`. -/
def format_top_habits (by_habit : List (String × Nat)) (limit : Nat) : String :=
  if by_habit.isEmpty then "Пока нет данных."
  else String.intercalate "\n"
    ((by_habit.take limit).map (fun p => habit_label p.1 ++ " — " ++ toString p.2))

/-! ### Facts about the grouped counts -/

theorem groupByCountDesc_sorted {α : Type} [DecidableEq α] (l : List α) :
    List.Sorted countDesc (groupByCountDesc l) :=
  List.sorted_insertionSort countDesc _

theorem groupByCountDesc_length {α : Type} [DecidableEq α] (l : List α) :
    (groupByCountDesc l).length = l.dedup.length := by
  unfold groupByCountDesc
  rw [List.length_insertionSort, List.length_map]

theorem mem_groupByCountDesc {α : Type} [DecidableEq α] (l : List α)
    (p : α × Nat) :
    p ∈ groupByCountDesc l ↔ p.1 ∈ l.dedup ∧ p.2 = bucketCount l p.1 := by
  unfold groupByCountDesc
  rw [List.mem_insertionSort, List.mem_map]
  constructor
  · rintro ⟨k, hk, rfl⟩
    exact ⟨hk, rfl⟩
  · rintro ⟨h1, h2⟩
    exact ⟨p.1, h1, by rw [← h2]⟩

theorem groupByCountDesc_pos {α : Type} [DecidableEq α] (l : List α)
    (p : α × Nat) (hp : p ∈ groupByCountDesc l) : 0 < p.2 := by
  obtain ⟨h1, h2⟩ := (mem_groupByCountDesc l p).mp hp
  rw [h2]
  exact List.count_pos_iff.mpr (List.mem_dedup.mp h1)

/-- C4. The top-habit selection shown by the bot: per-habit counts are sorted
descending; at most 3 entries are displayed; fewer than 3 are displayed only
when fewer than 3 distinct habits carry any mark (zero-mark habits never
appear, every listed count is positive); and an empty leaderboard renders the
explicit "no data" placeholder instead of an empty list. -/
theorem top_habits_spec (s : Store) (user_id : Nat) :
    ((get_user_stats s user_id).2.2.take 3).length ≤ 3 ∧
    List.Sorted countDesc (get_user_stats s user_id).2.2 ∧
    (∀ p ∈ (get_user_stats s user_id).2.2, 0 < p.2) ∧
    (((get_user_stats s user_id).2.2.take 3).length < 3 →
      (get_user_stats s user_id).2.2.take 3 = (get_user_stats s user_id).2.2) ∧
    (get_user_stats s user_id).2.2.length =
      (((s.checkins.filter (fun c => c.user_id == user_id)).map
        (fun c => c.habit_key)).dedup).length ∧
    ((get_user_stats s user_id).2.2 = [] →
      format_top_habits (get_user_stats s user_id).2.2 3 = "Пока нет данных.") := by
  refine ⟨?_, ?_, ?_, ?_, ?_, ?_⟩
  · rw [List.length_take]
    exact Nat.min_le_left 3 _
  · exact groupByCountDesc_sorted _
  · exact fun p hp => groupByCountDesc_pos _ p hp
  · intro hlt
    rw [List.length_take] at hlt
    have : (get_user_stats s user_id).2.2.length < 3 := by
      rcases Nat.lt_or_ge (get_user_stats s user_id).2.2.length 3 with h | h
      · exact h
      · rw [Nat.min_eq_left h] at hlt
        omega
    exact List.take_of_length_le (Nat.le_of_lt this)
  · exact groupByCountDesc_length _
  · intro h
    rw [h]
    rfl

/-- Witness for C4 at a concrete store: user 1 has marks on two habits. -/
theorem top_habits_spec_witness :
    (((get_user_stats (Store.mk [] [⟨1, "2024-05-01", "no_cup"⟩,
        ⟨1, "2024-05-01", "lights_off"⟩, ⟨1, "2024-05-02", "no_cup"⟩]) 1).2.2.take 3).length ≤ 3) ∧
    List.Sorted countDesc (get_user_stats (Store.mk [] [⟨1, "2024-05-01", "no_cup"⟩,
        ⟨1, "2024-05-01", "lights_off"⟩, ⟨1, "2024-05-02", "no_cup"⟩]) 1).2.2 ∧
    (∀ p ∈ (get_user_stats (Store.mk [] [⟨1, "2024-05-01", "no_cup"⟩,
        ⟨1, "2024-05-01", "lights_off"⟩, ⟨1, "2024-05-02", "no_cup"⟩]) 1).2.2, 0 < p.2) ∧
    (((get_user_stats (Store.mk [] [⟨1, "2024-05-01", "no_cup"⟩,
        ⟨1, "2024-05-01", "lights_off"⟩, ⟨1, "2024-05-02", "no_cup"⟩]) 1).2.2.take 3).length < 3 →
      (get_user_stats (Store.mk [] [⟨1, "2024-05-01", "no_cup"⟩,
        ⟨1, "2024-05-01", "lights_off"⟩, ⟨1, "2024-05-02", "no_cup"⟩]) 1).2.2.take 3 =
      (get_user_stats (Store.mk [] [⟨1, "2024-05-01", "no_cup"⟩,
        ⟨1, "2024-05-01", "lights_off"⟩, ⟨1, "2024-05-02", "no_cup"⟩]) 1).2.2) ∧
    (get_user_stats (Store.mk [] [⟨1, "2024-05-01", "no_cup"⟩,
        ⟨1, "2024-05-01", "lights_off"⟩, ⟨1, "2024-05-02", "no_cup"⟩]) 1).2.2.length =
      ((((Store.mk [] [⟨1, "2024-05-01", "no_cup"⟩, ⟨1, "2024-05-01", "lights_off"⟩,
        ⟨1, "2024-05-02", "no_cup"⟩] : Store).checkins.filter
          (fun c => c.user_id == 1)).map (fun c => c.habit_key)).dedup).length ∧
    ((get_user_stats (Store.mk [] [⟨1, "2024-05-01", "no_cup"⟩,
        ⟨1, "2024-05-01", "lights_off"⟩, ⟨1, "2024-05-02", "no_cup"⟩]) 1).2.2 = [] →
      format_top_habits (get_user_stats (Store.mk [] [⟨1, "2024-05-01", "no_cup"⟩,
        ⟨1, "2024-05-01", "lights_off"⟩, ⟨1, "2024-05-02", "no_cup"⟩]) 1).2.2 3 =
      "Пока нет данных.") :=
  top_habits_spec (Store.mk [] [⟨1, "2024-05-01", "no_cup"⟩,
    ⟨1, "2024-05-01", "lights_off"⟩, ⟨1, "2024-05-02", "no_cup"⟩]) 1

/-- C6. `get_group_stats` without a `WHERE` filter (the school call site):
the member count is the total number of registered users, grouped or not, and
the mark total, distinct-day count, and per-habit counts aggregate exactly the
marks of registered users. -/
theorem group_stats_nofilter (s : Store) :
    (get_group_stats s (fun _ => true)).1 = s.users.length ∧
    (get_group_stats s (fun _ => true)).2.1 =
      (s.checkins.filter (fun c => (findUser s.users c.user_id).isSome)).length ∧
    (get_group_stats s (fun _ => true)).2.2.1 =
      (((s.checkins.filter (fun c => (findUser s.users c.user_id).isSome)).map
        (fun c => c.day)).dedup).length ∧
    (get_group_stats s (fun _ => true)).2.2.2 =
      groupByCountDesc ((s.checkins.filter
        (fun c => (findUser s.users c.user_id).isSome)).map (fun c => c.habit_key)) := by
  have hjoin : s.checkins.filter (fun c =>
      match findUser s.users c.user_id with
      | some _ => true
      | none => false) =
      s.checkins.filter (fun c => (findUser s.users c.user_id).isSome) := by
    apply List.filter_congr
    intro c _
    cases findUser s.users c.user_id <;> rfl
  unfold get_group_stats
  rw [hjoin]
  refine ⟨?_, rfl, rfl, rfl⟩
  rw [List.filter_true]

/-! ### Group-selection callback -/

/-- The toast answered by the `class:` callback. -/
inductive SetClassReply where
  | rejected (text : String)
  | confirmed (text : String)
deriving DecidableEq, Repr

/-- `cb_setclass` of `bot.py`: a label outside `CLASSES` is rejected before
any write; otherwise the user is upserted and the class stored. -/
def cb_setclass (s : Store) (user_id : Nat) (username first_name : Option String)
    (class_name : String) (now : String) : Store × SetClassReply :=
  if class_name ∈ CLASSES then
    (set_user_class (upsert_user s user_id username first_name now) user_id class_name,
      .confirmed "Класс сохранён!")
  else
    (s, .rejected "Такого класса нет в первом релизе.")

/-- C7. Choosing a group label outside the static catalog answers the
user-visible rejection and performs no write at all: the returned store is the
input store, so no upsert, no display-name update and no group write happened. -/
theorem cb_setclass_invalid_rejects (s : Store) (user_id : Nat)
    (username first_name : Option String) (class_name now : String)
    (h : class_name ∉ CLASSES) :
    cb_setclass s user_id username first_name class_name now =
      (s, .rejected "Такого класса нет в первом релизе.") := by
  simp [cb_setclass, h]

/-- Witness for C7: the label "5А" is outside the catalog and leaves a concrete
store untouched. -/
theorem cb_setclass_invalid_rejects_witness :
    "5А" ∉ CLASSES ∧
    cb_setclass (Store.mk [(1, ⟨none, none, none, "2024-05-01"⟩)] []) 1
        (some "ann") (some "Ann") "5А" "2024-06-01" =
      (Store.mk [(1, ⟨none, none, none, "2024-05-01"⟩)] [],
        .rejected "Такого класса нет в первом релизе.") :=
  ⟨by decide, cb_setclass_invalid_rejects
    (Store.mk [(1, ⟨none, none, none, "2024-05-01"⟩)] []) 1
    (some "ann") (some "Ann") "5А" "2024-06-01" (by decide)⟩

/-! ### School statistics: the rolling 7-day most-active-class query -/

/-- The 7-day window of `send_school_stats` at the level of `date.toordinal`:
`from_day = today.toordinal() - 6` and then `from_day + i` for `i in range(7)`
(`date.fromordinal` and `isoformat` translate each ordinal to the ISO day
string bound into the SQL `IN` list, a bijection on ordinals). -/
def school_window_days (todayOrd : Int) : List Int :=
  (List.range 7).map (fun i => (todayOrd - 6) + (i : Int))

/-- The most-active-class query of `send_school_stats`, before grouping: one
`users.class_name` value per `checkins JOIN users` row with
`checkins.day IN days_list`. -/
def window_class_values (s : Store) (days_list : List String) : List (Option String) :=
  s.checkins.filterMap (fun c =>
    if c.day ∈ days_list then (findUser s.users c.user_id).map (fun r => r.class_name)
    else none)

/-- `GROUP BY users.class_name ORDER BY c DESC` of the same query. -/
def window_class_rows (s : Store) (days_list : List String) :
    List (Option String × Nat) :=
  groupByCountDesc (window_class_values s days_list)

/-- The `top_class_line` of `send_school_stats`: Python keeps the "no data"
placeholder unless `rows` is nonempty and `rows[0][0]` is truthy, i.e. a
non-NULL, nonempty class name. -/
def top_class_line (s : Store) (days_list : List String) : String :=
  match window_class_rows s days_list with
  | (some c, n) :: _ =>
      if c = "" then "Нет данных за последние 7 дней."
      else "Самый активный класс за 7 дней: *" ++ c ++ "* (отметок: *" ++ toString n ++ "*)"
  | _ => "Нет данных за последние 7 дней."

/-- C5. Over a window containing zero marks the most-active-class line of the
school summary is the "no data" placeholder, and the window is exactly the
trailing 7 calendar days of the date taken at call time: today and the 6
preceding days, inclusive (stated on `date.toordinal` values). -/
theorem school_stats_empty_window (s : Store) (t : Int) (days_list : List String)
    (h : ∀ c ∈ s.checkins, c.day ∉ days_list) :
    top_class_line s days_list = "Нет данных за последние 7 дней." ∧
    school_window_days t = [t - 6, t - 5, t - 4, t - 3, t - 2, t - 1, t] := by
  constructor
  · have hv : window_class_values s days_list = [] := by
      unfold window_class_values
      exact List.filterMap_eq_nil_iff.mpr (fun c hc => if_neg (h c hc))
    unfold top_class_line window_class_rows
    rw [hv]
    rfl
  · have h7 : school_window_days t = [t - 6 + 0, t - 6 + 1, t - 6 + 2, t - 6 + 3,
        t - 6 + 4, t - 6 + 5, t - 6 + 6] := rfl
    rw [h7]
    simp only [List.cons.injEq, and_true]
    omega

/-- Witness for C5: a concrete store with one mark outside a concrete window. -/
theorem school_stats_empty_window_witness :
    (∀ c ∈ (Store.mk [(1, ⟨none, none, some "6В", "2024-01-01"⟩)]
        [⟨1, "2024-04-01", "no_cup"⟩]).checkins, c.day ∉ ["2024-05-01", "2024-05-02"]) ∧
    (top_class_line (Store.mk [(1, ⟨none, none, some "6В", "2024-01-01"⟩)]
        [⟨1, "2024-04-01", "no_cup"⟩]) ["2024-05-01", "2024-05-02"] =
      "Нет данных за последние 7 дней." ∧
    school_window_days 739017 = [739011, 739012, 739013, 739014, 739015, 739016, 739017]) :=
  ⟨by decide, school_stats_empty_window
    (Store.mk [(1, ⟨none, none, some "6В", "2024-01-01"⟩)] [⟨1, "2024-04-01", "no_cup"⟩])
    739017 ["2024-05-01", "2024-05-02"] (by decide)⟩

/-! ### Evening reminder dispatch -/

/-- Python truthiness of the optional class name (`if not cls`). -/
def truthyStr : Option String → Bool
  | none => false
  | some c => !(c == "")

/-- One attempted send of `evening_ping`; `delivered` records whether the
transport call raised (the per-user `except` logs the failure and moves on, so
the iteration as a whole is a plain pass over `get_all_users`). -/
inductive PingAttempt where
  | classPrompt (user_id : Nat) (delivered : Bool)
  | checkinPrompt (user_id : Nat) (marks : List String) (delivered : Bool)
deriving DecidableEq, Repr

def PingAttempt.isClassPrompt : PingAttempt → Bool
  | .classPrompt _ _ => true
  | .checkinPrompt _ _ _ => false

def PingAttempt.uid : PingAttempt → Nat
  | .classPrompt u _ => u
  | .checkinPrompt u _ _ => u

/-- `evening_ping` of `bot.py`: `day_str` is computed once per run; each user
without a truthy class gets the class-selection prompt, every other user the
check-in prompt whose keyboard `habits_kb` is prefilled from
`get_user_day_habits(uid, day_str)`; `delivered` is the outcome of the send. -/
def evening_ping (s : Store) (day_str : String) (delivered : Nat → Bool) :
    List PingAttempt :=
  (get_all_users s).map (fun uid =>
    if truthyStr (get_user_class s uid) then
      .checkinPrompt uid (get_user_day_habits s uid day_str) (delivered uid)
    else
      .classPrompt uid (delivered uid))

theorem length_filter_split {α : Type} (l : List α) (p : α → Bool) :
    (l.filter p).length + (l.filter (fun a => !p a)).length = l.length := by
  induction l with
  | nil => rfl
  | cons hd tl ih =>
    cases h : p hd <;> simp [List.filter_cons, h] <;> omega

/-- C8. One reminder run over N registered users of whom M lack a group
attempts a send for every user whatever the delivery outcomes (so one failure
never stops the batch), issues exactly M class prompts and N−M check-in
prompts, and each check-in prompt is prefilled with that user's marks for the
single `day_str` of the run. -/
theorem evening_ping_spec (s : Store) (day : String) (delivered : Nat → Bool) :
    (evening_ping s day delivered).map (fun a => a.uid) = get_all_users s ∧
    ((evening_ping s day delivered).filter (fun a => a.isClassPrompt)).length =
      ((get_all_users s).filter (fun uid => !truthyStr (get_user_class s uid))).length ∧
    ((evening_ping s day delivered).filter (fun a => !a.isClassPrompt)).length =
      (get_all_users s).length -
        ((get_all_users s).filter (fun uid => !truthyStr (get_user_class s uid))).length ∧
    (∀ uid marks d, PingAttempt.checkinPrompt uid marks d ∈ evening_ping s day delivered →
      marks = get_user_day_habits s uid day) := by
  have hcls : ∀ uid, PingAttempt.isClassPrompt
      (if truthyStr (get_user_class s uid) then
        PingAttempt.checkinPrompt uid (get_user_day_habits s uid day) (delivered uid)
      else PingAttempt.classPrompt uid (delivered uid)) =
      !truthyStr (get_user_class s uid) := by
    intro uid
    cases h : truthyStr (get_user_class s uid) <;> simp [h, PingAttempt.isClassPrompt]
  refine ⟨?_, ?_, ?_, ?_⟩
  · unfold evening_ping
    rw [List.map_map]
    rw [List.map_id'' (fun uid => by
      cases h : truthyStr (get_user_class s uid) <;> simp [h, PingAttempt.uid])]
  · unfold evening_ping
    rw [List.filter_map]
    rw [List.length_map]
    apply congrArg List.length
    apply List.filter_congr
    intro uid _
    exact hcls uid
  · unfold evening_ping
    rw [List.filter_map]
    rw [List.length_map]
    have hsplit := length_filter_split (get_all_users s)
      (fun uid => !truthyStr (get_user_class s uid))
    have hc : List.filter ((fun a => !a.isClassPrompt) ∘ fun uid =>
        if truthyStr (get_user_class s uid) then
          PingAttempt.checkinPrompt uid (get_user_day_habits s uid day) (delivered uid)
        else PingAttempt.classPrompt uid (delivered uid)) (get_all_users s) =
        List.filter (fun uid => !(!truthyStr (get_user_class s uid))) (get_all_users s) := by
      apply List.filter_congr
      intro uid _
      show (!(PingAttempt.isClassPrompt _)) = _
      rw [hcls uid]
    rw [hc]
    omega
  · intro uid marks d hm
    unfold evening_ping at hm
    obtain ⟨uid0, _, heq⟩ := List.mem_map.mp hm
    by_cases h : truthyStr (get_user_class s uid0)
    · rw [if_pos h] at heq
      injection heq with h1 h2 h3
      rw [← h1, h2]
    · rw [if_neg h] at heq
      exact absurd heq (by simp)

/-- Witness for C8: two users, user 2 ungrouped, delivery failing for user 1. -/
theorem evening_ping_spec_witness :
    (evening_ping (Store.mk [(1, ⟨none, none, some "6В", "2024-01-01"⟩),
        (2, ⟨none, none, none, "2024-01-02"⟩)] [⟨1, "2024-05-01", "no_cup"⟩])
        "2024-05-01" (fun uid => decide (uid ≠ 1))).map (fun a => a.uid) =
      get_all_users (Store.mk [(1, ⟨none, none, some "6В", "2024-01-01"⟩),
        (2, ⟨none, none, none, "2024-01-02"⟩)] [⟨1, "2024-05-01", "no_cup"⟩]) ∧
    ((evening_ping (Store.mk [(1, ⟨none, none, some "6В", "2024-01-01"⟩),
        (2, ⟨none, none, none, "2024-01-02"⟩)] [⟨1, "2024-05-01", "no_cup"⟩])
        "2024-05-01" (fun uid => decide (uid ≠ 1))).filter
        (fun a => a.isClassPrompt)).length =
      ((get_all_users (Store.mk [(1, ⟨none, none, some "6В", "2024-01-01"⟩),
        (2, ⟨none, none, none, "2024-01-02"⟩)] [⟨1, "2024-05-01", "no_cup"⟩])).filter
        (fun uid => !truthyStr (get_user_class (Store.mk
          [(1, ⟨none, none, some "6В", "2024-01-01"⟩),
           (2, ⟨none, none, none, "2024-01-02"⟩)] [⟨1, "2024-05-01", "no_cup"⟩]) uid))).length ∧
    ((evening_ping (Store.mk [(1, ⟨none, none, some "6В", "2024-01-01"⟩),
        (2, ⟨none, none, none, "2024-01-02"⟩)] [⟨1, "2024-05-01", "no_cup"⟩])
        "2024-05-01" (fun uid => decide (uid ≠ 1))).filter
        (fun a => !a.isClassPrompt)).length =
      (get_all_users (Store.mk [(1, ⟨none, none, some "6В", "2024-01-01"⟩),
        (2, ⟨none, none, none, "2024-01-02"⟩)] [⟨1, "2024-05-01", "no_cup"⟩])).length -
        ((get_all_users (Store.mk [(1, ⟨none, none, some "6В", "2024-01-01"⟩),
          (2, ⟨none, none, none, "2024-01-02"⟩)] [⟨1, "2024-05-01", "no_cup"⟩])).filter
          (fun uid => !truthyStr (get_user_class (Store.mk
            [(1, ⟨none, none, some "6В", "2024-01-01"⟩),
             (2, ⟨none, none, none, "2024-01-02"⟩)] [⟨1, "2024-05-01", "no_cup"⟩]) uid))).length ∧
    (∀ uid marks d, PingAttempt.checkinPrompt uid marks d ∈
        evening_ping (Store.mk [(1, ⟨none, none, some "6В", "2024-01-01"⟩),
          (2, ⟨none, none, none, "2024-01-02"⟩)] [⟨1, "2024-05-01", "no_cup"⟩])
          "2024-05-01" (fun uid => decide (uid ≠ 1)) →
      marks = get_user_day_habits (Store.mk [(1, ⟨none, none, some "6В", "2024-01-01"⟩),
        (2, ⟨none, none, none, "2024-01-02"⟩)] [⟨1, "2024-05-01", "no_cup"⟩]) uid "2024-05-01") :=
  evening_ping_spec (Store.mk [(1, ⟨none, none, some "6В", "2024-01-01"⟩),
    (2, ⟨none, none, none, "2024-01-02"⟩)] [⟨1, "2024-05-01", "no_cup"⟩])
    "2024-05-01" (fun uid => decide (uid ≠ 1))

/-! ### The NULL-class bucket of the most-active-class query -/

theorem count_none_window (users : List (Nat × UserRow)) (days_list : List String) :
    ∀ l : List Checkin,
      bucketCount (l.filterMap (fun c =>
        if c.day ∈ days_list then (findUser users c.user_id).map (fun r => r.class_name)
        else none)) (none : Option String) =
      (l.filter (fun c => decide (c.day ∈ days_list) &&
        decide ((findUser users c.user_id).map (fun r => r.class_name) = some none))).length
  | [] => rfl
  | hd :: tl => by
    have ih := count_none_window users days_list tl
    unfold bucketCount at ih ⊢
    rw [List.filterMap_cons, List.filter_cons]
    by_cases hday : hd.day ∈ days_list
    · rw [if_pos hday]
      cases hfind : (findUser users hd.user_id).map (fun r => r.class_name) with
      | none => simp [hfind, hday, ih]
      | some v =>
        cases v with
        | none => simp [hfind, hday, ih, List.count_cons]
        | some str => simp [hfind, hday, ih, List.count_cons]
    · rw [if_neg hday]
      simp [hday, ih]

theorem bucketCount_pos_iff {α : Type} [DecidableEq α] (l : List α) (k : α) :
    0 < bucketCount l k ↔ k ∈ l := by
  unfold bucketCount
  exact List.count_pos_iff

/-- C9. Implicit behaviour of `send_school_stats`: marks of registered but
ungrouped users flow into the 7-day grouping as the NULL-class bucket (its
count is exactly the number of windowed marks of ungrouped users), and whenever
that bucket strictly tops the ranking, the summary shows the "no data"
placeholder even though marks do exist in the window. -/
theorem ungrouped_top_class_placeholder (s : Store) (days_list : List String)
    (hpos : 0 < bucketCount (window_class_values s days_list) (none : Option String))
    (hmax : ∀ k ∈ (window_class_values s days_list).dedup, k ≠ none →
      bucketCount (window_class_values s days_list) k <
        bucketCount (window_class_values s days_list) (none : Option String)) :
    bucketCount (window_class_values s days_list) (none : Option String) =
      (s.checkins.filter (fun c => decide (c.day ∈ days_list) &&
        decide ((findUser s.users c.user_id).map (fun r => r.class_name) = some none))).length ∧
    ((none : Option String),
        bucketCount (window_class_values s days_list) (none : Option String))
      ∈ window_class_rows s days_list ∧
    top_class_line s days_list = "Нет данных за последние 7 дней." := by
  have hmemv : (none : Option String) ∈ window_class_values s days_list :=
    (bucketCount_pos_iff _ _).mp hpos
  have hmem : ((none : Option String),
      bucketCount (window_class_values s days_list) (none : Option String))
      ∈ window_class_rows s days_list :=
    (mem_groupByCountDesc _ _).mpr ⟨List.mem_dedup.mpr hmemv, rfl⟩
  refine ⟨count_none_window s.users days_list s.checkins, hmem, ?_⟩
  cases hrows : window_class_rows s days_list with
  | nil =>
    rw [hrows] at hmem
    exact absurd hmem (List.not_mem_nil _)
  | cons hd tl =>
    obtain ⟨k0, n0⟩ := hd
    have hsorted : List.Sorted countDesc ((k0, n0) :: tl) := by
      rw [← hrows]
      exact groupByCountDesc_sorted _
    have hhd_mem : ((k0, n0) : Option String × Nat) ∈ window_class_rows s days_list := by
      rw [hrows]
      exact List.mem_cons_self _ _
    obtain ⟨hk0dedup, hn0⟩ := (mem_groupByCountDesc _ _).mp hhd_mem
    have hk0 : k0 = none := by
      by_contra hne
      have h1 := hmax k0 hk0dedup hne
      have h2 : bucketCount (window_class_values s days_list) (none : Option String) ≤ n0 := by
        rw [hrows] at hmem
        rcases List.mem_cons.mp hmem with heq | htl
        · exact ((hne (congrArg Prod.fst heq).symm)).elim
        · exact (List.sorted_cons.mp hsorted).1 _ htl
      simp only at hn0
      omega
    subst hk0
    unfold top_class_line
    rw [hrows]

/-- Witness for C9: user 1 is registered without a group and owns 2 windowed
marks, user 2 is in "6В" with 1; the most-active line degrades to "no data". -/
theorem ungrouped_top_class_placeholder_witness :
    0 < bucketCount (window_class_values
      (Store.mk [(1, ⟨none, none, none, "2024-01-01"⟩),
        (2, ⟨none, none, some "6В", "2024-01-02"⟩)]
        [⟨1, "2024-05-01", "no_cup"⟩, ⟨1, "2024-05-02", "no_cup"⟩,
         ⟨2, "2024-05-01", "no_bag"⟩]) ["2024-05-01", "2024-05-02"])
      (none : Option String) ∧
    (∀ k ∈ (window_class_values (Store.mk [(1, ⟨none, none, none, "2024-01-01"⟩),
        (2, ⟨none, none, some "6В", "2024-01-02"⟩)]
        [⟨1, "2024-05-01", "no_cup"⟩, ⟨1, "2024-05-02", "no_cup"⟩,
         ⟨2, "2024-05-01", "no_bag"⟩]) ["2024-05-01", "2024-05-02"]).dedup, k ≠ none →
      bucketCount (window_class_values (Store.mk [(1, ⟨none, none, none, "2024-01-01"⟩),
        (2, ⟨none, none, some "6В", "2024-01-02"⟩)]
        [⟨1, "2024-05-01", "no_cup"⟩, ⟨1, "2024-05-02", "no_cup"⟩,
         ⟨2, "2024-05-01", "no_bag"⟩]) ["2024-05-01", "2024-05-02"]) k <
        bucketCount (window_class_values
          (Store.mk [(1, ⟨none, none, none, "2024-01-01"⟩),
            (2, ⟨none, none, some "6В", "2024-01-02"⟩)]
            [⟨1, "2024-05-01", "no_cup"⟩, ⟨1, "2024-05-02", "no_cup"⟩,
             ⟨2, "2024-05-01", "no_bag"⟩]) ["2024-05-01", "2024-05-02"])
          (none : Option String)) ∧
    top_class_line (Store.mk [(1, ⟨none, none, none, "2024-01-01"⟩),
        (2, ⟨none, none, some "6В", "2024-01-02"⟩)]
        [⟨1, "2024-05-01", "no_cup"⟩, ⟨1, "2024-05-02", "no_cup"⟩,
         ⟨2, "2024-05-01", "no_bag"⟩]) ["2024-05-01", "2024-05-02"] =
      "Нет данных за последние 7 дней." :=
  ⟨by decide, by decide,
    (ungrouped_top_class_placeholder
      (Store.mk [(1, ⟨none, none, none, "2024-01-01"⟩),
        (2, ⟨none, none, some "6В", "2024-01-02"⟩)]
        [⟨1, "2024-05-01", "no_cup"⟩, ⟨1, "2024-05-02", "no_cup"⟩,
         ⟨2, "2024-05-01", "no_bag"⟩]) ["2024-05-01", "2024-05-02"]
      (by decide) (by decide)).2.2⟩

end EcoBot
